import Mathlib

/-!
# Token Safety Oracle — shallow embedding

A shallow embedding of the safety-scoring core of `src/app.py`
(the `analyze_token_safety` rule pipeline and the TTL result cache),
together with theorems settling the specification claims.

Modelling conventions:

* Python floats (liquidity, age, volume, taxes, timestamps) are `ℚ`.
* Python ints (holder counts, score, risk) are `ℤ`.
* The Python `checks` dict is an association list `List (String × Val)`
  with overwrite-on-assignment semantics (`setc`), preserving insertion
  order like a Python dict.
* `f"{x}%"`-formatted tax strings are represented by the dedicated
  constructor `Val.pct`, since no claim depends on float formatting.
* Optional payloads (`live_data` may be `None`, `security_data` may be
  `None`, metadata fields may be absent) are `Option` values; the
  `.get(key, default)` defaulting of the source is applied exactly where
  the source applies it.
-/

/-- A value stored in the `checks` dict: the source stores strings,
ints (holder counts), floats (liquidity/age/volume), booleans
(`goplus_available`) and `f"{tax}%"` strings (`Val.pct`). -/
inductive Val where
  | str  (s : String)
  | int  (n : ℤ)
  | num  (q : ℚ)
  | bool (b : Bool)
  | pct  (q : ℚ)
  deriving DecidableEq

/-- The `checks` dict: insertion-ordered association list. -/
abbrev Checks := List (String × Val)

/-- Dict assignment `checks[k] = v`: overwrite in place if the key is
present, else append. -/
def setc : Checks → String → Val → Checks
  | [], k, v => [(k, v)]
  | p :: c, k, v => if p.1 = k then (k, v) :: c else p :: setc c k v

/-- Dict read `checks.get(k)`: value at the key, if present. -/
def getc : Checks → String → Option Val
  | [], _ => none
  | p :: c, k => if p.1 = k then some p.2 else getc c k

/-- `checks.get(k, d)` where the stored value is an int (the source only
ever stores `holder_count` as an int). -/
def getIntD (c : Checks) (k : String) (d : ℤ) : ℤ :=
  match getc c k with
  | some (Val.int n) => n
  | some _ => d
  | none => d

/-- Number of rows of `c` keyed by `k`. -/
def countKey (c : Checks) (k : String) : ℕ :=
  (c.filter (fun p => p.1 = k)).length

/-- Live market payload from DexScreener (`fetch_dexscreener_data`
always populates these fields when it returns a dict). -/
structure LiveData where
  liquidity_usd : ℚ
  age_minutes : ℚ
  volume_24h : ℚ
  deriving DecidableEq

/-- Security payload from GoPlus, restricted to the fields
`analyze_token_safety` reads. `buy_tax`/`sell_tax` model
`float(security_data.get(k, 0))` with the default already applied;
`is_honeypot`, `is_mintable`, `owner_address`, `token_name` are the raw
optional dict entries; `holder_count` models
`int(security_data.get('holder_count', 0))`. -/
structure SecurityData where
  is_honeypot : Option String
  buy_tax : ℚ
  sell_tax : ℚ
  is_mintable : Option String
  owner_address : Option String
  holder_count : ℤ
  token_name : Option String
  deriving DecidableEq

/-- Caller-supplied metadata, restricted to the fields the source reads;
`none` models an absent key, defaults are applied at the read sites. -/
structure Metadata where
  name : Option String
  holder_count : Option ℤ
  liquidity_usd : Option ℚ
  age_minutes : Option ℚ
  volume_24h : Option ℚ
  deriving DecidableEq

/-- The `SafetyCheckResult` dataclass. -/
structure SafetyCheckResult where
  safe : Bool
  safety_score : ℤ
  rug_pull_risk : ℤ
  is_honeypot : Bool
  recommendation : String
  checks : Checks
  chain : String
  token_address : String
  metadata : Metadata
  data_source : String

/-- The mutable local state threaded through the checks of
`analyze_token_safety`. -/
structure EvalState where
  checks : Checks
  safety_score : ℤ
  rug_risk : ℤ
  is_honeypot : Bool
  deriving DecidableEq

/-- Python `str.lower()`, modelled characterwise. -/
def lowerString (s : String) : String := ⟨s.data.map Char.toLower⟩

/-- Prefix test on character lists. -/
def isPrefixList : List Char → List Char → Bool
  | [], _ => true
  | _ :: _, [] => false
  | a :: as, b :: bs => a = b && isPrefixList as bs

/-- `containsSubAux needle hay`: does `needle` occur at some position of
`hay`? -/
def containsSubAux (needle : List Char) : List Char → Bool
  | [] => isPrefixList needle []
  | c :: cs => isPrefixList needle (c :: cs) || containsSubAux needle cs

/-- Substring test: `needle in hay` for Python strings. -/
def containsSub (hay needle : String) : Bool :=
  containsSubAux needle.data hay.data

/-- The fixed scam keyword list of the name check. -/
def scam_keywords : List String :=
  ["test", "fake", "scam", "rug", "honeypot", "xxx", "pump"]

/-- The EVM zero address literal used by the ownership check. -/
def zeroAddress : String := "0x0000000000000000000000000000000000000000"

/-- Step 1 of the pipeline: the liquidity check. -/
def liquidityCheck (liquidity_usd : ℚ) (s : EvalState) : EvalState :=
  let s := { s with checks := setc s.checks "liquidity_usd" (Val.num liquidity_usd) }
  if liquidity_usd < 1000 then
    { s with safety_score := s.safety_score - 30, rug_risk := s.rug_risk + 30,
             checks := setc s.checks "liquidity_check" (Val.str "FAIL - Very low liquidity (< $1K)") }
  else if liquidity_usd < 10000 then
    { s with safety_score := s.safety_score - 15, rug_risk := s.rug_risk + 15,
             checks := setc s.checks "liquidity_check" (Val.str "WARNING - Low liquidity (< $10K)") }
  else
    { s with checks := setc s.checks "liquidity_check" (Val.str "PASS") }

/-- Step 2: the age check. -/
def ageCheck (age_minutes : ℚ) (s : EvalState) : EvalState :=
  let s := { s with checks := setc s.checks "age_minutes" (Val.num age_minutes) }
  if age_minutes < 2 then
    { s with safety_score := s.safety_score - 25, rug_risk := s.rug_risk + 25,
             checks := setc s.checks "age_check" (Val.str "FAIL - Very new token (< 2 min, high risk)") }
  else if age_minutes < 30 then
    { s with safety_score := s.safety_score - 10, rug_risk := s.rug_risk + 10,
             checks := setc s.checks "age_check" (Val.str "WARNING - New token (< 30 min)") }
  else
    { s with checks := setc s.checks "age_check" (Val.str "PASS") }

/-- Step 3: the volume check, which only runs when `volume_24h > 0`. -/
def volumeCheck (volume_24h : ℚ) (s : EvalState) : EvalState :=
  if 0 < volume_24h then
    let s := { s with checks := setc s.checks "volume_24h" (Val.num volume_24h) }
    if volume_24h < 100 then
      { s with safety_score := s.safety_score - 10, rug_risk := s.rug_risk + 10,
               checks := setc s.checks "volume_check" (Val.str "WARNING - Very low volume") }
    else
      { s with checks := setc s.checks "volume_check" (Val.str "PASS") }
  else s

/-- Security sub-check: the provider-confirmed honeypot branch. -/
def honeypotSecCheck (d : SecurityData) (s : EvalState) : EvalState :=
  if d.is_honeypot = some "1" then
    { s with is_honeypot := true,
             safety_score := min s.safety_score 10,
             rug_risk := max s.rug_risk 90,
             checks := setc s.checks "honeypot_check" (Val.str "FAIL - Confirmed honeypot") }
  else
    { s with checks := setc s.checks "honeypot_check" (Val.str "PASS") }

/-- Security sub-check: buy/sell tax. -/
def taxCheck (d : SecurityData) (s : EvalState) : EvalState :=
  let s := { s with checks := setc (setc s.checks "buy_tax" (Val.pct d.buy_tax)) "sell_tax" (Val.pct d.sell_tax) }
  if 50 < d.sell_tax then
    { s with safety_score := s.safety_score - 30, rug_risk := s.rug_risk + 30,
             checks := setc s.checks "tax_check" (Val.str "FAIL - Excessive sell tax") }
  else if 10 < d.sell_tax ∨ 10 < d.buy_tax then
    { s with safety_score := s.safety_score - 10, rug_risk := s.rug_risk + 10,
             checks := setc s.checks "tax_check" (Val.str "WARNING - High tax") }
  else
    { s with checks := setc s.checks "tax_check" (Val.str "PASS") }

/-- Security sub-check: mint function. -/
def mintCheck (d : SecurityData) (s : EvalState) : EvalState :=
  if d.is_mintable = some "1" then
    { s with safety_score := s.safety_score - 10, rug_risk := s.rug_risk + 10,
             checks := setc s.checks "mint_check" (Val.str "WARNING - Token is mintable") }
  else
    { s with checks := setc s.checks "mint_check" (Val.str "PASS") }

/-- Truthiness of `security_data.get('owner_address')` combined with the
zero-address comparison: a present, non-empty owner that differs from
the zero address. -/
def ownerFlag (d : SecurityData) : Bool :=
  match d.owner_address with
  | some a => !(a = "") && !(a = zeroAddress)
  | none => false

/-- Security sub-check: ownership renounced. -/
def ownerCheck (d : SecurityData) (s : EvalState) : EvalState :=
  if ownerFlag d then
    { s with safety_score := s.safety_score - 5, rug_risk := s.rug_risk + 5,
             checks := setc s.checks "ownership_check" (Val.str "WARNING - Ownership not renounced") }
  else
    { s with checks := setc s.checks "ownership_check" (Val.str "PASS") }

/-- Security sub-check: holder count from GoPlus (only when positive). -/
def holderSecCheck (d : SecurityData) (s : EvalState) : EvalState :=
  if 0 < d.holder_count then
    let s := { s with checks := setc s.checks "holder_count" (Val.int d.holder_count) }
    if d.holder_count < 50 then
      { s with safety_score := s.safety_score - 20, rug_risk := s.rug_risk + 20,
               checks := setc s.checks "holder_distribution" (Val.str "FAIL - Too few holders") }
    else if d.holder_count < 100 then
      { s with safety_score := s.safety_score - 10, rug_risk := s.rug_risk + 10,
               checks := setc s.checks "holder_distribution" (Val.str "WARNING - Low holder count") }
    else
      { s with checks := setc s.checks "holder_distribution" (Val.str "PASS") }
  else s

/-- The metadata fallback holder check, run only when no security
payload is available (only when the metadata count is positive). -/
def holderMetaCheck (md_holder : ℤ) (s : EvalState) : EvalState :=
  if 0 < md_holder then
    let s := { s with checks := setc s.checks "holder_count" (Val.int md_holder) }
    if md_holder < 100 then
      { s with safety_score := s.safety_score - 20, rug_risk := s.rug_risk + 20,
               checks := setc s.checks "holder_distribution" (Val.str "FAIL - Too few holders") }
    else
      { s with checks := setc s.checks "holder_distribution" (Val.str "PASS") }
  else s

/-- Step 4: the GoPlus security block, or the metadata holder fallback
when no security payload is available. -/
def securityChecks (sd : Option SecurityData) (md_holder : ℤ) (s : EvalState) : EvalState :=
  match sd with
  | some d =>
    let s := { s with checks := setc s.checks "goplus_available" (Val.bool true) }
    holderSecCheck d (ownerCheck d (mintCheck d (taxCheck d (honeypotSecCheck d s))))
  | none =>
    let s := { s with checks := setc s.checks "goplus_available" (Val.bool false) }
    holderMetaCheck md_holder s

/-- Step 5: the scam-keyword name check. -/
def nameCheck (token_name : String) (s : EvalState) : EvalState :=
  if scam_keywords.any (fun kw => containsSub token_name kw) then
    { s with safety_score := s.safety_score - 30, rug_risk := s.rug_risk + 30,
             checks := setc s.checks "name_check" (Val.str "FAIL - Suspicious name") }
  else
    { s with checks := setc s.checks "name_check" (Val.str "PASS") }

/-- Step 6: the heuristic honeypot determination, reading the resolved
holder count back out of the checks dict with sentinel default 1000. -/
def honeypotHeuristic (liquidity_usd age_minutes : ℚ) (s : EvalState) : EvalState :=
  if s.is_honeypot then s
  else if liquidity_usd < 500 ∧ age_minutes < 5 ∧ getIntD s.checks "holder_count" 1000 < 50 then
    { s with is_honeypot := true,
             safety_score := min s.safety_score 20,
             rug_risk := max s.rug_risk 80,
             checks := if getc s.checks "honeypot_check" = some (Val.str "PASS") then
                         setc s.checks "honeypot_check" (Val.str "FAIL - Likely honeypot (heuristic)")
                       else s.checks }
  else s

/-- Step 7: the final clamping of score and risk into `[0, 100]`. -/
def clampBounds (s : EvalState) : EvalState :=
  { s with safety_score := max 0 (min 100 s.safety_score),
           rug_risk := max 0 (min 100 s.rug_risk) }

/-- Liquidity resolution: live value when a live payload exists, else
`metadata.get("liquidity_usd", 0)`. -/
def resolvedLiquidity (live : Option LiveData) (md : Metadata) : ℚ :=
  match live with
  | some ld => ld.liquidity_usd
  | none => md.liquidity_usd.getD 0

/-- Age resolution, analogous to `resolvedLiquidity`. -/
def resolvedAge (live : Option LiveData) (md : Metadata) : ℚ :=
  match live with
  | some ld => ld.age_minutes
  | none => md.age_minutes.getD 0

/-- Volume resolution, analogous to `resolvedLiquidity`. -/
def resolvedVolume (live : Option LiveData) (md : Metadata) : ℚ :=
  match live with
  | some ld => ld.volume_24h
  | none => md.volume_24h.getD 0

/-- Token-name resolution: `metadata.get("name", "").lower()`,
overridden by `security_data['token_name'].lower()` when present. -/
def resolvedName (sd : Option SecurityData) (md : Metadata) : String :=
  match sd with
  | some d =>
    match d.token_name with
    | some n => lowerString n
    | none => lowerString (md.name.getD "")
  | none => lowerString (md.name.getD "")

/-- The ordered list of pipeline steps run by `analyze_token_safety`
after signal resolution. -/
def evalSteps (live : Option LiveData) (sd : Option SecurityData) (md : Metadata) :
    List (EvalState → EvalState) :=
  [liquidityCheck (resolvedLiquidity live md),
   ageCheck (resolvedAge live md),
   volumeCheck (resolvedVolume live md),
   securityChecks sd (md.holder_count.getD 0),
   nameCheck (resolvedName sd md),
   honeypotHeuristic (resolvedLiquidity live md) (resolvedAge live md),
   clampBounds]

/-- Sequential execution of pipeline steps on a state. -/
def runPipeline (steps : List (EvalState → EvalState)) (s : EvalState) : EvalState :=
  steps.foldl (fun a f => f a) s

/-- The initial local state of `analyze_token_safety`: empty-dict
writes of `token_name` and `data_source`, score 100, risk 0, honeypot
false. -/
def initState (live : Option LiveData) (sd : Option SecurityData) (md : Metadata) : EvalState :=
  { checks := setc (setc [] "token_name" (Val.str (resolvedName sd md)))
                   "data_source" (Val.str (if live.isSome then "live" else "metadata")),
    safety_score := 100, rug_risk := 0, is_honeypot := false }

/-- The recommendation tiering on the final clamped score. -/
def recommendationFor (score : ℤ) : String :=
  if 80 ≤ score then "SAFE - Low risk, recommended for trading"
  else if 60 ≤ score then "MODERATE - Some risks, trade with caution"
  else if 40 ≤ score then "RISKY - High risk, not recommended"
  else "DANGEROUS - Very high risk, avoid trading"

/-- The safety-scoring core: `analyze_token_safety` of `src/app.py`. -/
def analyze_token_safety (chain token_address : String) (live_data : Option LiveData)
    (security_data : Option SecurityData) (metadata : Metadata) : SafetyCheckResult :=
  let sF := runPipeline (evalSteps live_data security_data metadata)
                        (initState live_data security_data metadata)
  { safe := decide (60 ≤ sF.safety_score),
    safety_score := sF.safety_score,
    rug_pull_risk := sF.rug_risk,
    is_honeypot := sF.is_honeypot,
    recommendation := recommendationFor sF.safety_score,
    checks := sF.checks,
    chain := chain,
    token_address := token_address,
    metadata := metadata,
    data_source := if live_data.isSome then "live" else "metadata" }

/-! ## The result cache -/

/-- The fixed cache TTL (`CACHE_TTL = 300` seconds). -/
def CACHE_TTL : ℚ := 300

/-- The in-memory cache: key to (data, timestamp), `none` for absent. -/
def Cache (α : Type) : Type := String → Option (α × ℚ)

/-- `get_cache_key`: the `"chain:token_address"` key. -/
def get_cache_key (chain token_address : String) : String :=
  chain ++ ":" ++ token_address

/-- `set_cache`: unconditional overwrite at the key, stamped `now`. -/
def set_cache (c : Cache α) (key : String) (data : α) (now : ℚ) : Cache α :=
  fun k => if k = key then some (data, now) else c k

/-- `get_from_cache` at time `now`: a hit while `now - timestamp <
CACHE_TTL`, otherwise eviction and a miss; returns the read result and
the cache after the lazy eviction. -/
def get_from_cache (c : Cache α) (key : String) (now : ℚ) : Option α × Cache α :=
  match c key with
  | some (data, ts) =>
    if now - ts < CACHE_TTL then (some data, c)
    else (none, fun k => if k = key then none else c k)
  | none => (none, c)

/-! ## Association-list lemmas -/

theorem getc_setc_self (c : Checks) (k : String) (v : Val) :
    getc (setc c k v) k = some v := by
  induction c with
  | nil => simp [setc, getc]
  | cons p c ih =>
    by_cases h : p.1 = k
    · simp [setc, getc, h]
    · simp [setc, getc, h, ih]

theorem getc_setc_ne {k k' : String} (h : k ≠ k') (c : Checks) (v : Val) :
    getc (setc c k' v) k = getc c k := by
  induction c with
  | nil => simp [setc, getc, Ne.symm h]
  | cons p c ih =>
    by_cases hp : p.1 = k'
    · have hpk : ¬p.1 = k := by rw [hp]; exact Ne.symm h
      simp [setc, getc, hp, Ne.symm h, hpk]
    · by_cases hk : p.1 = k
      · simp [setc, getc, hp, hk, h]
      · simp [setc, getc, hp, hk, ih]

theorem keys_setc (c : Checks) (k : String) (v : Val) :
    (setc c k v).map Prod.fst =
      if k ∈ c.map Prod.fst then c.map Prod.fst else c.map Prod.fst ++ [k] := by
  induction c with
  | nil => simp [setc]
  | cons p c ih =>
    by_cases hp : p.1 = k
    · simp [setc, hp]
    · have hkp : ¬k = p.1 := fun hk => hp hk.symm
      by_cases hm : k ∈ c.map Prod.fst
      · simp [setc, hp, ih, hm, hkp]
      · simp [setc, hp, ih, hm, hkp]

theorem keys_nodup_setc {c : Checks} (h : (c.map Prod.fst).Nodup)
    (k : String) (v : Val) : ((setc c k v).map Prod.fst).Nodup := by
  rw [keys_setc]
  by_cases hm : k ∈ c.map Prod.fst
  · simpa [hm] using h
  · simp [hm, List.nodup_append, h]

theorem mem_keys_of_getc {c : Checks} {k : String} {v : Val}
    (h : getc c k = some v) : k ∈ c.map Prod.fst := by
  induction c with
  | nil => simp [getc] at h
  | cons p c ih =>
    by_cases hp : p.1 = k
    · simp [hp]
    · simp [getc, hp] at h
      simp [ih h]

theorem countKey_eq_count (c : Checks) (k : String) :
    countKey c k = (c.map Prod.fst).count k := by
  induction c with
  | nil => simp [countKey]
  | cons p c ih =>
    by_cases hp : p.1 = k
    · simp [countKey, List.filter_cons, hp, List.count_cons] at ih ⊢
      omega
    · simp [countKey, List.filter_cons, hp, List.count_cons, Ne.symm hp] at ih ⊢
      exact ih

theorem countKey_eq_one {c : Checks} {k : String} {v : Val}
    (hnd : (c.map Prod.fst).Nodup) (h : getc c k = some v) :
    countKey c k = 1 := by
  rw [countKey_eq_count]
  exact List.count_eq_one_of_mem hnd (mem_keys_of_getc h)

/-! ## Per-step facts: honeypot flag -/

theorem liquidityCheck_hp (q : ℚ) (s : EvalState) :
    (liquidityCheck q s).is_honeypot = s.is_honeypot := by
  unfold liquidityCheck; split_ifs <;> rfl

theorem ageCheck_hp (q : ℚ) (s : EvalState) :
    (ageCheck q s).is_honeypot = s.is_honeypot := by
  unfold ageCheck; split_ifs <;> rfl

theorem volumeCheck_hp (q : ℚ) (s : EvalState) :
    (volumeCheck q s).is_honeypot = s.is_honeypot := by
  unfold volumeCheck; split_ifs <;> rfl

theorem taxCheck_hp (d : SecurityData) (s : EvalState) :
    (taxCheck d s).is_honeypot = s.is_honeypot := by
  unfold taxCheck; split_ifs <;> rfl

theorem mintCheck_hp (d : SecurityData) (s : EvalState) :
    (mintCheck d s).is_honeypot = s.is_honeypot := by
  unfold mintCheck; split_ifs <;> rfl

theorem ownerCheck_hp (d : SecurityData) (s : EvalState) :
    (ownerCheck d s).is_honeypot = s.is_honeypot := by
  unfold ownerCheck; split_ifs <;> rfl

theorem holderSecCheck_hp (d : SecurityData) (s : EvalState) :
    (holderSecCheck d s).is_honeypot = s.is_honeypot := by
  unfold holderSecCheck; split_ifs <;> rfl

theorem holderMetaCheck_hp (m : ℤ) (s : EvalState) :
    (holderMetaCheck m s).is_honeypot = s.is_honeypot := by
  unfold holderMetaCheck; split_ifs <;> rfl

theorem nameCheck_hp (n : String) (s : EvalState) :
    (nameCheck n s).is_honeypot = s.is_honeypot := by
  unfold nameCheck; split_ifs <;> rfl

theorem clampBounds_hp (s : EvalState) :
    (clampBounds s).is_honeypot = s.is_honeypot := rfl

theorem honeypotSecCheck_hp_of_confirmed {d : SecurityData}
    (h : d.is_honeypot = some "1") (s : EvalState) :
    (honeypotSecCheck d s).is_honeypot = true ∧
    (honeypotSecCheck d s).safety_score ≤ 10 ∧
    90 ≤ (honeypotSecCheck d s).rug_risk := by
  unfold honeypotSecCheck
  rw [if_pos h]
  refine ⟨rfl, ?_, ?_⟩ <;> simp <;> omega

theorem honeypotSecCheck_hp_of_not {d : SecurityData}
    (h : d.is_honeypot ≠ some "1") (s : EvalState) :
    (honeypotSecCheck d s).is_honeypot = s.is_honeypot := by
  unfold honeypotSecCheck
  rw [if_neg h]

theorem honeypotSecCheck_hp_mono {d : SecurityData} {s : EvalState}
    (h : s.is_honeypot = true) :
    (honeypotSecCheck d s).is_honeypot = true := by
  unfold honeypotSecCheck; split_ifs <;> simpa using h

theorem securityChecks_hp_mono {sd : Option SecurityData} {m : ℤ} {s : EvalState}
    (h : s.is_honeypot = true) :
    (securityChecks sd m s).is_honeypot = true := by
  cases sd with
  | none => simpa [securityChecks, holderMetaCheck_hp] using h
  | some d =>
    simp only [securityChecks, holderSecCheck_hp, ownerCheck_hp, mintCheck_hp, taxCheck_hp]
    exact honeypotSecCheck_hp_mono (by simpa using h)

theorem honeypotHeuristic_of_true {l a : ℚ} {s : EvalState}
    (h : s.is_honeypot = true) : honeypotHeuristic l a s = s := by
  unfold honeypotHeuristic
  rw [if_pos h]

theorem honeypotHeuristic_hp_mono {l a : ℚ} {s : EvalState}
    (h : s.is_honeypot = true) :
    (honeypotHeuristic l a s).is_honeypot = true := by
  rw [honeypotHeuristic_of_true h]; exact h

/-! ## Per-step facts: score non-increasing, risk non-decreasing -/

theorem liquidityCheck_score_le (q : ℚ) (s : EvalState) :
    (liquidityCheck q s).safety_score ≤ s.safety_score := by
  unfold liquidityCheck; split_ifs <;> simp <;> omega

theorem ageCheck_score_le (q : ℚ) (s : EvalState) :
    (ageCheck q s).safety_score ≤ s.safety_score := by
  unfold ageCheck; split_ifs <;> simp <;> omega

theorem volumeCheck_score_le (q : ℚ) (s : EvalState) :
    (volumeCheck q s).safety_score ≤ s.safety_score := by
  unfold volumeCheck; split_ifs <;> simp <;> omega

theorem honeypotSecCheck_score_le (d : SecurityData) (s : EvalState) :
    (honeypotSecCheck d s).safety_score ≤ s.safety_score := by
  unfold honeypotSecCheck; split_ifs <;> simp <;> omega

theorem taxCheck_score_le (d : SecurityData) (s : EvalState) :
    (taxCheck d s).safety_score ≤ s.safety_score := by
  unfold taxCheck; split_ifs <;> simp <;> omega

theorem mintCheck_score_le (d : SecurityData) (s : EvalState) :
    (mintCheck d s).safety_score ≤ s.safety_score := by
  unfold mintCheck; split_ifs <;> simp <;> omega

theorem ownerCheck_score_le (d : SecurityData) (s : EvalState) :
    (ownerCheck d s).safety_score ≤ s.safety_score := by
  unfold ownerCheck; split_ifs <;> simp <;> omega

theorem holderSecCheck_score_le (d : SecurityData) (s : EvalState) :
    (holderSecCheck d s).safety_score ≤ s.safety_score := by
  unfold holderSecCheck; split_ifs <;> simp <;> omega

theorem holderMetaCheck_score_le (m : ℤ) (s : EvalState) :
    (holderMetaCheck m s).safety_score ≤ s.safety_score := by
  unfold holderMetaCheck; split_ifs <;> simp <;> omega

theorem nameCheck_score_le (n : String) (s : EvalState) :
    (nameCheck n s).safety_score ≤ s.safety_score := by
  unfold nameCheck; split_ifs <;> simp <;> omega

theorem honeypotHeuristic_score_le (l a : ℚ) (s : EvalState) :
    (honeypotHeuristic l a s).safety_score ≤ s.safety_score := by
  unfold honeypotHeuristic; split_ifs <;> simp <;> omega

theorem liquidityCheck_risk_ge (q : ℚ) (s : EvalState) :
    s.rug_risk ≤ (liquidityCheck q s).rug_risk := by
  unfold liquidityCheck; split_ifs <;> simp <;> omega

theorem ageCheck_risk_ge (q : ℚ) (s : EvalState) :
    s.rug_risk ≤ (ageCheck q s).rug_risk := by
  unfold ageCheck; split_ifs <;> simp <;> omega

theorem volumeCheck_risk_ge (q : ℚ) (s : EvalState) :
    s.rug_risk ≤ (volumeCheck q s).rug_risk := by
  unfold volumeCheck; split_ifs <;> simp <;> omega

theorem honeypotSecCheck_risk_ge (d : SecurityData) (s : EvalState) :
    s.rug_risk ≤ (honeypotSecCheck d s).rug_risk := by
  unfold honeypotSecCheck; split_ifs <;> simp <;> omega

theorem taxCheck_risk_ge (d : SecurityData) (s : EvalState) :
    s.rug_risk ≤ (taxCheck d s).rug_risk := by
  unfold taxCheck; split_ifs <;> simp <;> omega

theorem mintCheck_risk_ge (d : SecurityData) (s : EvalState) :
    s.rug_risk ≤ (mintCheck d s).rug_risk := by
  unfold mintCheck; split_ifs <;> simp <;> omega

theorem ownerCheck_risk_ge (d : SecurityData) (s : EvalState) :
    s.rug_risk ≤ (ownerCheck d s).rug_risk := by
  unfold ownerCheck; split_ifs <;> simp <;> omega

theorem holderSecCheck_risk_ge (d : SecurityData) (s : EvalState) :
    s.rug_risk ≤ (holderSecCheck d s).rug_risk := by
  unfold holderSecCheck; split_ifs <;> simp <;> omega

theorem holderMetaCheck_risk_ge (m : ℤ) (s : EvalState) :
    s.rug_risk ≤ (holderMetaCheck m s).rug_risk := by
  unfold holderMetaCheck; split_ifs <;> simp <;> omega

theorem nameCheck_risk_ge (n : String) (s : EvalState) :
    s.rug_risk ≤ (nameCheck n s).rug_risk := by
  unfold nameCheck; split_ifs <;> simp <;> omega

theorem honeypotHeuristic_risk_ge (l a : ℚ) (s : EvalState) :
    s.rug_risk ≤ (honeypotHeuristic l a s).rug_risk := by
  unfold honeypotHeuristic; split_ifs <;> simp <;> omega

/-! ## Per-step facts: keys written by each check -/

theorem getc_liquidityCheck {k : String} (h1 : k ≠ "liquidity_usd")
    (h2 : k ≠ "liquidity_check") (q : ℚ) (s : EvalState) :
    getc (liquidityCheck q s).checks k = getc s.checks k := by
  unfold liquidityCheck
  split_ifs <;> simp [getc_setc_ne h1, getc_setc_ne h2]

theorem getc_ageCheck {k : String} (h1 : k ≠ "age_minutes")
    (h2 : k ≠ "age_check") (q : ℚ) (s : EvalState) :
    getc (ageCheck q s).checks k = getc s.checks k := by
  unfold ageCheck
  split_ifs <;> simp [getc_setc_ne h1, getc_setc_ne h2]

theorem getc_volumeCheck {k : String} (h1 : k ≠ "volume_24h")
    (h2 : k ≠ "volume_check") (q : ℚ) (s : EvalState) :
    getc (volumeCheck q s).checks k = getc s.checks k := by
  unfold volumeCheck
  split_ifs <;> simp [getc_setc_ne h1, getc_setc_ne h2]

theorem getc_honeypotSecCheck {k : String} (h1 : k ≠ "honeypot_check")
    (d : SecurityData) (s : EvalState) :
    getc (honeypotSecCheck d s).checks k = getc s.checks k := by
  unfold honeypotSecCheck
  split_ifs <;> simp [getc_setc_ne h1]

theorem getc_taxCheck {k : String} (h1 : k ≠ "buy_tax") (h2 : k ≠ "sell_tax")
    (h3 : k ≠ "tax_check") (d : SecurityData) (s : EvalState) :
    getc (taxCheck d s).checks k = getc s.checks k := by
  unfold taxCheck
  split_ifs <;> simp [getc_setc_ne h1, getc_setc_ne h2, getc_setc_ne h3]

theorem getc_mintCheck {k : String} (h1 : k ≠ "mint_check")
    (d : SecurityData) (s : EvalState) :
    getc (mintCheck d s).checks k = getc s.checks k := by
  unfold mintCheck
  split_ifs <;> simp [getc_setc_ne h1]

theorem getc_ownerCheck {k : String} (h1 : k ≠ "ownership_check")
    (d : SecurityData) (s : EvalState) :
    getc (ownerCheck d s).checks k = getc s.checks k := by
  unfold ownerCheck
  split_ifs <;> simp [getc_setc_ne h1]

theorem getc_holderSecCheck {k : String} (h1 : k ≠ "holder_count")
    (h2 : k ≠ "holder_distribution") (d : SecurityData) (s : EvalState) :
    getc (holderSecCheck d s).checks k = getc s.checks k := by
  unfold holderSecCheck
  split_ifs <;> simp [getc_setc_ne h1, getc_setc_ne h2]

theorem getc_holderMetaCheck {k : String} (h1 : k ≠ "holder_count")
    (h2 : k ≠ "holder_distribution") (m : ℤ) (s : EvalState) :
    getc (holderMetaCheck m s).checks k = getc s.checks k := by
  unfold holderMetaCheck
  split_ifs <;> simp [getc_setc_ne h1, getc_setc_ne h2]

theorem getc_securityChecks {k : String} (h1 : k ≠ "goplus_available")
    (h2 : k ≠ "honeypot_check") (h3 : k ≠ "buy_tax") (h4 : k ≠ "sell_tax")
    (h5 : k ≠ "tax_check") (h6 : k ≠ "mint_check") (h7 : k ≠ "ownership_check")
    (h8 : k ≠ "holder_count") (h9 : k ≠ "holder_distribution")
    (sd : Option SecurityData) (m : ℤ) (s : EvalState) :
    getc (securityChecks sd m s).checks k = getc s.checks k := by
  cases sd with
  | none =>
    simp only [securityChecks]
    rw [getc_holderMetaCheck h8 h9]
    exact getc_setc_ne h1 _ _
  | some d =>
    simp only [securityChecks]
    rw [getc_holderSecCheck h8 h9, getc_ownerCheck h7, getc_mintCheck h6,
        getc_taxCheck h3 h4 h5, getc_honeypotSecCheck h2]
    exact getc_setc_ne h1 _ _

theorem getc_nameCheck {k : String} (h1 : k ≠ "name_check")
    (n : String) (s : EvalState) :
    getc (nameCheck n s).checks k = getc s.checks k := by
  unfold nameCheck
  split_ifs <;> simp [getc_setc_ne h1]

theorem getc_honeypotHeuristic {k : String} (h1 : k ≠ "honeypot_check")
    (l a : ℚ) (s : EvalState) :
    getc (honeypotHeuristic l a s).checks k = getc s.checks k := by
  unfold honeypotHeuristic
  split_ifs <;> simp [getc_setc_ne h1]

theorem getc_clampBounds (k : String) (s : EvalState) :
    getc (clampBounds s).checks k = getc s.checks k := rfl

/-! ## Per-step facts: key lists stay duplicate-free -/

theorem keys_nodup_liquidityCheck {s : EvalState}
    (h : (s.checks.map Prod.fst).Nodup) (q : ℚ) :
    (((liquidityCheck q s).checks).map Prod.fst).Nodup := by
  unfold liquidityCheck
  split_ifs <;> exact keys_nodup_setc (keys_nodup_setc h _ _) _ _

theorem keys_nodup_ageCheck {s : EvalState}
    (h : (s.checks.map Prod.fst).Nodup) (q : ℚ) :
    (((ageCheck q s).checks).map Prod.fst).Nodup := by
  unfold ageCheck
  split_ifs <;> exact keys_nodup_setc (keys_nodup_setc h _ _) _ _

theorem keys_nodup_volumeCheck {s : EvalState}
    (h : (s.checks.map Prod.fst).Nodup) (q : ℚ) :
    (((volumeCheck q s).checks).map Prod.fst).Nodup := by
  unfold volumeCheck
  split_ifs <;> first
    | exact keys_nodup_setc (keys_nodup_setc h _ _) _ _
    | exact h

theorem keys_nodup_honeypotSecCheck {s : EvalState}
    (h : (s.checks.map Prod.fst).Nodup) (d : SecurityData) :
    (((honeypotSecCheck d s).checks).map Prod.fst).Nodup := by
  unfold honeypotSecCheck
  split_ifs <;> exact keys_nodup_setc h _ _

theorem keys_nodup_taxCheck {s : EvalState}
    (h : (s.checks.map Prod.fst).Nodup) (d : SecurityData) :
    (((taxCheck d s).checks).map Prod.fst).Nodup := by
  unfold taxCheck
  split_ifs <;> exact keys_nodup_setc (keys_nodup_setc (keys_nodup_setc h _ _) _ _) _ _

theorem keys_nodup_mintCheck {s : EvalState}
    (h : (s.checks.map Prod.fst).Nodup) (d : SecurityData) :
    (((mintCheck d s).checks).map Prod.fst).Nodup := by
  unfold mintCheck
  split_ifs <;> exact keys_nodup_setc h _ _

theorem keys_nodup_ownerCheck {s : EvalState}
    (h : (s.checks.map Prod.fst).Nodup) (d : SecurityData) :
    (((ownerCheck d s).checks).map Prod.fst).Nodup := by
  unfold ownerCheck
  split_ifs <;> exact keys_nodup_setc h _ _

theorem keys_nodup_holderSecCheck {s : EvalState}
    (h : (s.checks.map Prod.fst).Nodup) (d : SecurityData) :
    (((holderSecCheck d s).checks).map Prod.fst).Nodup := by
  unfold holderSecCheck
  split_ifs <;> first
    | exact keys_nodup_setc (keys_nodup_setc h _ _) _ _
    | exact h

theorem keys_nodup_holderMetaCheck {s : EvalState}
    (h : (s.checks.map Prod.fst).Nodup) (m : ℤ) :
    (((holderMetaCheck m s).checks).map Prod.fst).Nodup := by
  unfold holderMetaCheck
  split_ifs <;> first
    | exact keys_nodup_setc (keys_nodup_setc h _ _) _ _
    | exact h

theorem keys_nodup_securityChecks {s : EvalState}
    (h : (s.checks.map Prod.fst).Nodup) (sd : Option SecurityData) (m : ℤ) :
    (((securityChecks sd m s).checks).map Prod.fst).Nodup := by
  cases sd with
  | none =>
    exact keys_nodup_holderMetaCheck (keys_nodup_setc h _ _) m
  | some d =>
    exact keys_nodup_holderSecCheck
      (keys_nodup_ownerCheck
        (keys_nodup_mintCheck
          (keys_nodup_taxCheck
            (keys_nodup_honeypotSecCheck (keys_nodup_setc h _ _) d) d) d) d) d

theorem keys_nodup_nameCheck {s : EvalState}
    (h : (s.checks.map Prod.fst).Nodup) (n : String) :
    (((nameCheck n s).checks).map Prod.fst).Nodup := by
  unfold nameCheck
  split_ifs <;> exact keys_nodup_setc h _ _

theorem keys_nodup_honeypotHeuristic {s : EvalState}
    (h : (s.checks.map Prod.fst).Nodup) (l a : ℚ) :
    (((honeypotHeuristic l a s).checks).map Prod.fst).Nodup := by
  unfold honeypotHeuristic
  split_ifs <;> first
    | exact keys_nodup_setc h _ _
    | exact h

theorem keys_nodup_clampBounds {s : EvalState}
    (h : (s.checks.map Prod.fst).Nodup) :
    (((clampBounds s).checks).map Prod.fst).Nodup := h

/-! ## Pipeline plumbing -/

theorem runPipeline_append (a b : List (EvalState → EvalState)) (s : EvalState) :
    runPipeline (a ++ b) s = runPipeline b (runPipeline a s) := by
  simp [runPipeline, List.foldl_append]

theorem runPipeline_hp_mono {l : List (EvalState → EvalState)}
    (hl : ∀ f ∈ l, ∀ s : EvalState, s.is_honeypot = true → (f s).is_honeypot = true) :
    ∀ s : EvalState, s.is_honeypot = true → (runPipeline l s).is_honeypot = true := by
  induction l with
  | nil => intro s hs; simpa [runPipeline] using hs
  | cons f l ih =>
    intro s hs
    have h1 : (f s).is_honeypot = true := hl f (by simp) s hs
    have h2 := ih (fun g hg => hl g (by simp [hg])) (f s) h1
    simpa [runPipeline] using h2

theorem evalSteps_hp_mono (live : Option LiveData) (sd : Option SecurityData)
    (md : Metadata) :
    ∀ f ∈ evalSteps live sd md, ∀ s : EvalState,
      s.is_honeypot = true → (f s).is_honeypot = true := by
  intro f hf s hs
  simp only [evalSteps, List.mem_cons, List.mem_singleton] at hf
  rcases hf with h | h | h | h | h | h | h | h
  · rw [h, liquidityCheck_hp]; exact hs
  · rw [h, ageCheck_hp]; exact hs
  · rw [h, volumeCheck_hp]; exact hs
  · rw [h]; exact securityChecks_hp_mono hs
  · rw [h, nameCheck_hp]; exact hs
  · rw [h]; exact honeypotHeuristic_hp_mono hs
  · rw [h, clampBounds_hp]; exact hs
  · exact absurd h (by simp)

/-! ## Check-row characterizations -/

theorem getc_volumeCheck_row {q : ℚ} (h : 0 < q) (s : EvalState) :
    getc (volumeCheck q s).checks "volume_check" =
      some (Val.str (if q < 100 then "WARNING - Very low volume" else "PASS")) := by
  unfold volumeCheck
  rw [if_pos h]
  split_ifs with h2 <;> simp [h2, getc_setc_self]

theorem getc_holderSecCheck_row {d : SecurityData} (h : 0 < d.holder_count)
    (s : EvalState) :
    getc (holderSecCheck d s).checks "holder_distribution" =
      some (Val.str (if d.holder_count < 50 then "FAIL - Too few holders"
        else if d.holder_count < 100 then "WARNING - Low holder count"
        else "PASS")) := by
  unfold holderSecCheck
  rw [if_pos h]
  by_cases h2 : d.holder_count < 50
  · simp [h2, getc_setc_self]
  · by_cases h3 : d.holder_count < 100
    · simp [h2, h3, getc_setc_self]
    · simp [h2, h3, getc_setc_self]

theorem getc_holderMetaCheck_row {m : ℤ} (h : 0 < m) (s : EvalState) :
    getc (holderMetaCheck m s).checks "holder_distribution" =
      some (Val.str (if m < 100 then "FAIL - Too few holders" else "PASS")) := by
  unfold holderMetaCheck
  rw [if_pos h]
  split_ifs with h2 <;> simp [h2, getc_setc_self]

theorem getc_securityChecks_row_some {d : SecurityData} (h : 0 < d.holder_count)
    (m : ℤ) (s : EvalState) :
    getc (securityChecks (some d) m s).checks "holder_distribution" =
      some (Val.str (if d.holder_count < 50 then "FAIL - Too few holders"
        else if d.holder_count < 100 then "WARNING - Low holder count"
        else "PASS")) := by
  simp only [securityChecks]
  exact getc_holderSecCheck_row h _

theorem getc_securityChecks_row_none {m : ℤ} (h : 0 < m) (s : EvalState) :
    getc (securityChecks none m s).checks "holder_distribution" =
      some (Val.str (if m < 100 then "FAIL - Too few holders" else "PASS")) := by
  simp only [securityChecks]
  exact getc_holderMetaCheck_row h _

theorem holderSecCheck_of_nonpos {d : SecurityData} (h : d.holder_count ≤ 0)
    (s : EvalState) : holderSecCheck d s = s := by
  unfold holderSecCheck
  rw [if_neg (by omega)]

theorem holderMetaCheck_of_nonpos {m : ℤ} (h : m ≤ 0) (s : EvalState) :
    holderMetaCheck m s = s := by
  unfold holderMetaCheck
  rw [if_neg (by omega)]

theorem getc_securityChecks_holder_count {sd : Option SecurityData} {m : ℤ}
    (hs : ∀ d, sd = some d → d.holder_count ≤ 0) (hm : m ≤ 0) (s : EvalState) :
    getc (securityChecks sd m s).checks "holder_count" = getc s.checks "holder_count" := by
  cases sd with
  | none =>
    simp only [securityChecks]
    rw [holderMetaCheck_of_nonpos hm]
    exact getc_setc_ne (by decide) _ _
  | some d =>
    simp only [securityChecks]
    rw [holderSecCheck_of_nonpos (hs d rfl),
        getc_ownerCheck (by decide), getc_mintCheck (by decide),
        getc_taxCheck (by decide) (by decide) (by decide),
        getc_honeypotSecCheck (by decide)]
    exact getc_setc_ne (by decide) _ _

theorem securityChecks_hp_of_not {sd : Option SecurityData} {m : ℤ}
    (hs : ∀ d, sd = some d → d.is_honeypot ≠ some "1") (s : EvalState) :
    (securityChecks sd m s).is_honeypot = s.is_honeypot := by
  cases sd with
  | none => simp [securityChecks, holderMetaCheck_hp]
  | some d =>
    simp only [securityChecks, holderSecCheck_hp, ownerCheck_hp, mintCheck_hp, taxCheck_hp]
    rw [honeypotSecCheck_hp_of_not (hs d rfl)]

theorem securityChecks_score_le (sd : Option SecurityData) (m : ℤ) (s : EvalState) :
    (securityChecks sd m s).safety_score ≤ s.safety_score := by
  cases sd with
  | none =>
    simp only [securityChecks]
    exact le_trans (holderMetaCheck_score_le m _) (le_refl _)
  | some d =>
    simp only [securityChecks]
    exact le_trans (holderSecCheck_score_le d _)
      (le_trans (ownerCheck_score_le d _)
        (le_trans (mintCheck_score_le d _)
          (le_trans (taxCheck_score_le d _) (honeypotSecCheck_score_le d _))))

theorem securityChecks_risk_ge (sd : Option SecurityData) (m : ℤ) (s : EvalState) :
    s.rug_risk ≤ (securityChecks sd m s).rug_risk := by
  cases sd with
  | none =>
    simp only [securityChecks]
    exact holderMetaCheck_risk_ge m _
  | some d =>
    simp only [securityChecks]
    refine le_trans ?_ (holderSecCheck_risk_ge d _)
    refine le_trans ?_ (ownerCheck_risk_ge d _)
    refine le_trans ?_ (mintCheck_risk_ge d _)
    refine le_trans ?_ (taxCheck_risk_ge d _)
    exact honeypotSecCheck_risk_ge d _

theorem securityChecks_confirmed {d : SecurityData} (h : d.is_honeypot = some "1")
    (m : ℤ) (s : EvalState) :
    (securityChecks (some d) m s).is_honeypot = true ∧
    (securityChecks (some d) m s).safety_score ≤ 10 ∧
    90 ≤ (securityChecks (some d) m s).rug_risk := by
  simp only [securityChecks]
  set s1 : EvalState := { s with checks := setc s.checks "goplus_available" (Val.bool true) } with hs1
  obtain ⟨hhp, hsc, hrk⟩ := honeypotSecCheck_hp_of_confirmed h s1
  refine ⟨?_, ?_, ?_⟩
  · rw [holderSecCheck_hp, ownerCheck_hp, mintCheck_hp, taxCheck_hp]
    exact hhp
  · exact le_trans (holderSecCheck_score_le d _)
      (le_trans (ownerCheck_score_le d _)
        (le_trans (mintCheck_score_le d _)
          (le_trans (taxCheck_score_le d _) hsc)))
  · exact le_trans hrk
      (le_trans (taxCheck_risk_ge d _)
        (le_trans (mintCheck_risk_ge d _)
          (le_trans (ownerCheck_risk_ge d _) (holderSecCheck_risk_ge d _))))

/-- The pipeline of `analyze_token_safety`, written as the explicit
composition of its seven steps. -/
theorem runPipeline_evalSteps (live : Option LiveData) (sd : Option SecurityData)
    (md : Metadata) (s : EvalState) :
    runPipeline (evalSteps live sd md) s =
      clampBounds
        (honeypotHeuristic (resolvedLiquidity live md) (resolvedAge live md)
          (nameCheck (resolvedName sd md)
            (securityChecks sd (md.holder_count.getD 0)
              (volumeCheck (resolvedVolume live md)
                (ageCheck (resolvedAge live md)
                  (liquidityCheck (resolvedLiquidity live md) s)))))) := rfl

/-! ## Claims -/

/-- C1: for every combination of metadata, live market data and security
data, the final safety score and rug-pull risk of
`analyze_token_safety` both lie in `[0, 100]`, because both
accumulators are independently clamped after all rule adjustments. -/
theorem analyze_score_risk_bounded (chain token_address : String)
    (live : Option LiveData) (sd : Option SecurityData) (md : Metadata) :
    0 ≤ (analyze_token_safety chain token_address live sd md).safety_score ∧
    (analyze_token_safety chain token_address live sd md).safety_score ≤ 100 ∧
    0 ≤ (analyze_token_safety chain token_address live sd md).rug_pull_risk ∧
    (analyze_token_safety chain token_address live sd md).rug_pull_risk ≤ 100 := by
  have h1 : (analyze_token_safety chain token_address live sd md).safety_score =
      (runPipeline (evalSteps live sd md) (initState live sd md)).safety_score := rfl
  have h2 : (analyze_token_safety chain token_address live sd md).rug_pull_risk =
      (runPipeline (evalSteps live sd md) (initState live sd md)).rug_risk := rfl
  rw [h1, h2, runPipeline_evalSteps]
  unfold clampBounds
  refine ⟨?_, ?_, ?_, ?_⟩ <;> simp <;> omega

/-- C3: the boolean `safe` field of every evaluation result equals the
comparison `final clamped safety score ≥ 60`. -/
theorem analyze_safe_iff (chain token_address : String) (live : Option LiveData)
    (sd : Option SecurityData) (md : Metadata) :
    (analyze_token_safety chain token_address live sd md).safe = true ↔
      60 ≤ (analyze_token_safety chain token_address live sd md).safety_score := by
  have h : (analyze_token_safety chain token_address live sd md).safe =
      decide (60 ≤ (analyze_token_safety chain token_address live sd md).safety_score) := rfl
  rw [h]
  exact decide_eq_true_iff

/-- C4: `set_cache` followed by `get_from_cache` on the same key returns
exactly the stored response while less than `CACHE_TTL = 300` seconds
have elapsed; once the age reaches the TTL the lookup is a miss and the
entry is removed from the cache. -/
theorem cache_roundtrip {α : Type} (c : Cache α) (key : String) (data : α)
    (t₀ t₁ : ℚ) :
    (t₁ - t₀ < CACHE_TTL →
      (get_from_cache (set_cache c key data t₀) key t₁).1 = some data ∧
      (get_from_cache (set_cache c key data t₀) key t₁).2 = set_cache c key data t₀) ∧
    (CACHE_TTL ≤ t₁ - t₀ →
      (get_from_cache (set_cache c key data t₀) key t₁).1 = none ∧
      (get_from_cache (set_cache c key data t₀) key t₁).2 key = none) := by
  constructor
  · intro h
    simp [get_from_cache, set_cache, h]
  · intro h
    have h2 : ¬(t₁ - t₀ < CACHE_TTL) := not_lt.mpr h
    simp [get_from_cache, set_cache, h2]

/-- Witness for C4 at a concrete key, response and pair of timestamps:
a hit at age 100 returning the stored value, a miss with eviction at
age 300. -/
theorem cache_roundtrip_witness :
    ((get_from_cache (set_cache (fun _ => none) "solana:TokenA" 42 0) "solana:TokenA" 100).1
        = some (42 : ℕ) ∧
      (get_from_cache (set_cache (fun _ => none) "solana:TokenA" (42 : ℕ) 0) "solana:TokenA" 300).1
        = none ∧
      (get_from_cache (set_cache (fun _ => none) "solana:TokenA" (42 : ℕ) 0) "solana:TokenA" 300).2
        "solana:TokenA" = none) :=
  ⟨((cache_roundtrip (fun _ => none) "solana:TokenA" 42 0 100).1 (by norm_num [CACHE_TTL])).1,
   ((cache_roundtrip (fun _ => none) "solana:TokenA" 42 0 300).2 (by norm_num [CACHE_TTL])).1,
   ((cache_roundtrip (fun _ => none) "solana:TokenA" 42 0 300).2 (by norm_num [CACHE_TTL])).2⟩

/-- Empty caller metadata: every optional field absent. -/
def mdEmpty : Metadata :=
  { name := none, holder_count := none, liquidity_usd := none,
    age_minutes := none, volume_24h := none }

/-- A GoPlus payload reporting a confirmed honeypot and nothing else. -/
def sdConfirmed : SecurityData :=
  { is_honeypot := some "1", buy_tax := 0, sell_tax := 0, is_mintable := none,
    owner_address := none, holder_count := 0, token_name := none }

/-- C2: whenever the security payload reports `is_honeypot = '1'`, the
result has `is_honeypot = true`, final safety score at most 10 and
final rug-pull risk at least 90, for every other signal value. -/
theorem analyze_confirmed_honeypot (chain token_address : String)
    (live : Option LiveData) (d : SecurityData) (md : Metadata)
    (h : d.is_honeypot = some "1") :
    (analyze_token_safety chain token_address live (some d) md).is_honeypot = true ∧
    (analyze_token_safety chain token_address live (some d) md).safety_score ≤ 10 ∧
    90 ≤ (analyze_token_safety chain token_address live (some d) md).rug_pull_risk := by
  have key : ∀ sF : EvalState,
      sF = runPipeline (evalSteps live (some d) md) (initState live (some d) md) →
      sF.is_honeypot = true ∧ sF.safety_score ≤ 10 ∧ 90 ≤ sF.rug_risk := by
    intro sF hsF
    rw [runPipeline_evalSteps] at hsF
    set s3 := volumeCheck (resolvedVolume live md) (ageCheck (resolvedAge live md)
      (liquidityCheck (resolvedLiquidity live md) (initState live (some d) md))) with hs3
    obtain ⟨hhp, hsc, hrk⟩ := securityChecks_confirmed h (md.holder_count.getD 0) s3
    set sS := securityChecks (some d) (md.holder_count.getD 0) s3 with hsS
    set sN := nameCheck (resolvedName (some d) md) sS with hsN
    have hhpN : sN.is_honeypot = true := by rw [hsN, nameCheck_hp]; exact hhp
    have hscN : sN.safety_score ≤ 10 := le_trans (nameCheck_score_le _ _) hsc
    have hrkN : (90 : ℤ) ≤ sN.rug_risk := le_trans hrk (nameCheck_risk_ge _ _)
    rw [honeypotHeuristic_of_true hhpN] at hsF
    subst hsF
    refine ⟨hhpN, ?_, ?_⟩ <;> unfold clampBounds <;> simp <;> omega
  exact key _ rfl

/-- Witness for C2: a concrete confirmed-honeypot payload yields
`is_honeypot = true`, score at most 10, risk at least 90. -/
theorem analyze_confirmed_honeypot_witness :
    (analyze_token_safety "ethereum" "0xToken" none (some sdConfirmed) mdEmpty).is_honeypot = true ∧
    (analyze_token_safety "ethereum" "0xToken" none (some sdConfirmed) mdEmpty).safety_score ≤ 10 ∧
    90 ≤ (analyze_token_safety "ethereum" "0xToken" none (some sdConfirmed) mdEmpty).rug_pull_risk :=
  analyze_confirmed_honeypot "ethereum" "0xToken" none sdConfirmed mdEmpty rfl

/-- C9: once `is_honeypot` is true after any prefix of the evaluation
pipeline, no later step resets it, and the returned result carries
`is_honeypot = true`. -/
theorem analyze_honeypot_monotone (chain token_address : String)
    (live : Option LiveData) (sd : Option SecurityData) (md : Metadata) (n : ℕ)
    (h : (runPipeline ((evalSteps live sd md).take n)
        (initState live sd md)).is_honeypot = true) :
    (analyze_token_safety chain token_address live sd md).is_honeypot = true := by
  have e : (analyze_token_safety chain token_address live sd md).is_honeypot =
      (runPipeline (evalSteps live sd md) (initState live sd md)).is_honeypot := rfl
  rw [e, ← List.take_append_drop n (evalSteps live sd md), runPipeline_append]
  exact runPipeline_hp_mono
    (fun f hf s hs => evalSteps_hp_mono live sd md f (List.mem_of_mem_drop hf) s hs) _ h

/-- Witness for C9: on a confirmed-honeypot input the flag is true after
the four steps up to and including the security block, and the returned
result still carries it. -/
theorem analyze_honeypot_monotone_witness :
    (runPipeline ((evalSteps none (some sdConfirmed) mdEmpty).take 4)
        (initState none (some sdConfirmed) mdEmpty)).is_honeypot = true ∧
    (analyze_token_safety "base" "0xHoney" none (some sdConfirmed) mdEmpty).is_honeypot = true :=
  ⟨by decide, analyze_honeypot_monotone "base" "0xHoney" none (some sdConfirmed) mdEmpty 4 (by decide)⟩

/-- C10: when neither the security payload nor the metadata supplies a
positive holder count, the `holder_count` row is never written, the
heuristic reads its sentinel default 1000 (which is not below 50) and
cannot fire, so without a provider-confirmed honeypot the result has
`is_honeypot = false` — whatever the liquidity and age. -/
theorem analyze_no_holder_no_heuristic (chain token_address : String)
    (live : Option LiveData) (sd : Option SecurityData) (md : Metadata)
    (hsd : ∀ d, sd = some d → d.holder_count ≤ 0)
    (hmd : md.holder_count.getD 0 ≤ 0)
    (hhp : ∀ d, sd = some d → d.is_honeypot ≠ some "1") :
    (analyze_token_safety chain token_address live sd md).is_honeypot = false := by
  have e : (analyze_token_safety chain token_address live sd md).is_honeypot =
      (runPipeline (evalSteps live sd md) (initState live sd md)).is_honeypot := rfl
  rw [e, runPipeline_evalSteps]
  set s3 := volumeCheck (resolvedVolume live md) (ageCheck (resolvedAge live md)
    (liquidityCheck (resolvedLiquidity live md) (initState live sd md))) with hs3
  have hp3 : s3.is_honeypot = false := by
    rw [hs3, volumeCheck_hp, ageCheck_hp, liquidityCheck_hp]; rfl
  set sS := securityChecks sd (md.holder_count.getD 0) s3 with hsS
  have hpS : sS.is_honeypot = false := by
    rw [hsS, securityChecks_hp_of_not hhp]; exact hp3
  set sN := nameCheck (resolvedName sd md) sS with hsN
  have hpN : sN.is_honeypot = false := by rw [hsN, nameCheck_hp]; exact hpS
  have hkey : getc sN.checks "holder_count" = none := by
    rw [hsN, getc_nameCheck (by decide), hsS, getc_securityChecks_holder_count hsd hmd,
        hs3, getc_volumeCheck (by decide) (by decide), getc_ageCheck (by decide) (by decide),
        getc_liquidityCheck (by decide) (by decide)]
    unfold initState
    rw [getc_setc_ne (by decide), getc_setc_ne (by decide)]
    rfl
  have hint : getIntD sN.checks "holder_count" 1000 = 1000 := by
    unfold getIntD; rw [hkey]
  rw [clampBounds_hp]
  unfold honeypotHeuristic
  rw [hpN]
  simp [hint]
  exact hpN

/-- Witness for C10: absent holder data, zero liquidity and zero age,
no security payload — the heuristic does not fire. -/
theorem analyze_no_holder_no_heuristic_witness :
    (analyze_token_safety "solana" "TokenB" none none mdEmpty).is_honeypot = false :=
  analyze_no_holder_no_heuristic "solana" "TokenB" none none mdEmpty
    (fun d h => by cases h) (by decide) (fun d h => by cases h)

/-- The metadata of the spec's "ScamCoin" scenario: holders 10,
liquidity 500 USD, age 1 minute, name "ScamCoin". -/
def scamcoinMetadata : Metadata :=
  { name := some "ScamCoin", holder_count := some 10, liquidity_usd := some 500,
    age_minutes := some 1, volume_24h := none }

/-- C5 counterexample: on the spec's own scenario input the heuristic
honeypot override does NOT fire, because the liquidity condition is
strict (`liquidity < 500`) and the scenario's liquidity is exactly 500;
the result has `is_honeypot = false`, contradicting the claim. -/
theorem scamcoin_heuristic_not_fired :
    (analyze_token_safety "solana" "TokenC" none none scamcoinMetadata).is_honeypot = false := by
  decide

/-- C5 as amended: on the scenario input the holder, liquidity, age and
name checks all FAIL, the heuristic does not fire (`is_honeypot =
false` since liquidity is not strictly below 500), the final score is
0 (in particular at most 20), and the recommendation tier is
DANGEROUS. -/
theorem scamcoin_scenario :
    getc (analyze_token_safety "solana" "TokenC" none none scamcoinMetadata).checks
        "holder_distribution" = some (Val.str "FAIL - Too few holders") ∧
    getc (analyze_token_safety "solana" "TokenC" none none scamcoinMetadata).checks
        "liquidity_check" = some (Val.str "FAIL - Very low liquidity (< $1K)") ∧
    getc (analyze_token_safety "solana" "TokenC" none none scamcoinMetadata).checks
        "age_check" = some (Val.str "FAIL - Very new token (< 2 min, high risk)") ∧
    getc (analyze_token_safety "solana" "TokenC" none none scamcoinMetadata).checks
        "name_check" = some (Val.str "FAIL - Suspicious name") ∧
    (analyze_token_safety "solana" "TokenC" none none scamcoinMetadata).is_honeypot = false ∧
    (analyze_token_safety "solana" "TokenC" none none scamcoinMetadata).safety_score = 0 ∧
    (analyze_token_safety "solana" "TokenC" none none scamcoinMetadata).safety_score ≤ 20 ∧
    (analyze_token_safety "solana" "TokenC" none none scamcoinMetadata).recommendation =
      "DANGEROUS - Very high risk, avoid trading" := by
  refine ⟨by decide, by decide, by decide, by decide, by decide, by decide, by decide, by decide⟩

/-- An all-pass GoPlus payload for an EVM token (no honeypot, no taxes,
not mintable, owner renounced, 500 holders), with no verification
information anywhere in the signals. -/
def evmPassSecurity : SecurityData :=
  { is_honeypot := some "0", buy_tax := 0, sell_tax := 0, is_mintable := some "0",
    owner_address := none, holder_count := 500, token_name := some "SafeToken" }

/-- Healthy EVM metadata: liquidity 50000 USD, age 120 minutes. -/
def evmPassMetadata : Metadata :=
  { name := none, holder_count := none, liquidity_usd := some 50000,
    age_minutes := some 120, volume_24h := none }

/-- C6 counterexample: an Ethereum evaluation whose signals carry no
contract-verification information (hence "not verified" under the
spec's defaulting) ends with score 100 — no 15-point deduction — and
its checks mapping is exactly the listed keys, none of which is a
contract-verification row. -/
theorem no_contract_verification_row :
    (analyze_token_safety "ethereum" "0xUnverified" none (some evmPassSecurity)
        evmPassMetadata).safety_score = 100 ∧
    ((analyze_token_safety "ethereum" "0xUnverified" none (some evmPassSecurity)
        evmPassMetadata).checks).map Prod.fst =
      ["token_name", "data_source", "liquidity_usd", "liquidity_check", "age_minutes",
       "age_check", "goplus_available", "honeypot_check", "buy_tax", "sell_tax",
       "tax_check", "mint_check", "ownership_check", "holder_count",
       "holder_distribution", "name_check"] := by
  refine ⟨by decide, by decide⟩

/-- C6 as amended: the rule engine contains no contract-verification
check at all — on every input, for every chain, the checks mapping of
the result has no `contract_verification` row (and no signal field for
verification exists to be read). -/
theorem analyze_no_contract_verification_check (chain token_address : String)
    (live : Option LiveData) (sd : Option SecurityData) (md : Metadata) :
    getc (analyze_token_safety chain token_address live sd md).checks
      "contract_verification" = none := by
  have e : (analyze_token_safety chain token_address live sd md).checks =
      (runPipeline (evalSteps live sd md) (initState live sd md)).checks := rfl
  rw [e, runPipeline_evalSteps, getc_clampBounds, getc_honeypotHeuristic (by decide),
      getc_nameCheck (by decide),
      getc_securityChecks (by decide) (by decide) (by decide) (by decide) (by decide)
        (by decide) (by decide) (by decide) (by decide),
      getc_volumeCheck (by decide) (by decide), getc_ageCheck (by decide) (by decide),
      getc_liquidityCheck (by decide) (by decide)]
  unfold initState
  rw [getc_setc_ne (by decide), getc_setc_ne (by decide)]
  rfl

/-- EVM-style metadata with 70 holders and otherwise healthy signals. -/
def evmMeta70 : Metadata :=
  { name := none, holder_count := some 70, liquidity_usd := some 50000,
    age_minutes := some 120, volume_24h := none }

/-- C7 counterexample: an Ethereum token with no security payload and a
metadata holder count of 70 — in `[50, 100)`, which the claim says is a
WARNING for EVM — gets the FAIL row and the −20 deduction (score 80,
not the 90 a −10 WARNING would produce): the threshold selection
depends on security-data availability, not on the chain. -/
theorem holder_thresholds_not_by_chain :
    getc (analyze_token_safety "ethereum" "0xT70" none none evmMeta70).checks
        "holder_distribution" = some (Val.str "FAIL - Too few holders") ∧
    (analyze_token_safety "ethereum" "0xT70" none none evmMeta70).safety_score = 80 := by
  refine ⟨by decide, by decide⟩

/-- C7 as amended: the holder-distribution thresholds are selected by
security-data availability, identically on every chain: with a positive
GoPlus holder count, below 50 is FAIL and `[50, 100)` is WARNING; with
no security payload, a positive metadata holder count below 100 is
FAIL. -/
theorem analyze_holder_thresholds (chain token_address : String)
    (live : Option LiveData) (md : Metadata) :
    (∀ d : SecurityData, 0 < d.holder_count → d.holder_count < 50 →
      getc (analyze_token_safety chain token_address live (some d) md).checks
        "holder_distribution" = some (Val.str "FAIL - Too few holders")) ∧
    (∀ d : SecurityData, 50 ≤ d.holder_count → d.holder_count < 100 →
      getc (analyze_token_safety chain token_address live (some d) md).checks
        "holder_distribution" = some (Val.str "WARNING - Low holder count")) ∧
    (∀ h : ℤ, md.holder_count = some h → 0 < h → h < 100 →
      getc (analyze_token_safety chain token_address live none md).checks
        "holder_distribution" = some (Val.str "FAIL - Too few holders")) := by
  have e : ∀ sd, (analyze_token_safety chain token_address live sd md).checks =
      (runPipeline (evalSteps live sd md) (initState live sd md)).checks :=
    fun sd => rfl
  refine ⟨?_, ?_, ?_⟩
  · intro d hpos hlt
    rw [e, runPipeline_evalSteps, getc_clampBounds, getc_honeypotHeuristic (by decide),
        getc_nameCheck (by decide), getc_securityChecks_row_some hpos]
    rw [if_pos hlt]
  · intro d hge hlt
    rw [e, runPipeline_evalSteps, getc_clampBounds, getc_honeypotHeuristic (by decide),
        getc_nameCheck (by decide), getc_securityChecks_row_some (by omega)]
    rw [if_neg (by omega), if_pos hlt]
  · intro h hmd hpos hlt
    rw [e, runPipeline_evalSteps, getc_clampBounds, getc_honeypotHeuristic (by decide),
        getc_nameCheck (by decide)]
    have hres : md.holder_count.getD 0 = h := by rw [hmd]; rfl
    rw [hres, getc_securityChecks_row_none hpos, if_pos hlt]

/-- Witness for C7 (amended): on Solana a GoPlus holder count of 10 is
FAIL and one of 70 is WARNING; on Ethereum a metadata holder count of
70 with no security payload is FAIL. -/
theorem analyze_holder_thresholds_witness :
    getc (analyze_token_safety "solana" "TokHold" none
        (some { is_honeypot := none, buy_tax := 0, sell_tax := 0, is_mintable := none,
                owner_address := none, holder_count := 10, token_name := none })
        mdEmpty).checks "holder_distribution" = some (Val.str "FAIL - Too few holders") ∧
    getc (analyze_token_safety "solana" "TokHold" none
        (some { is_honeypot := none, buy_tax := 0, sell_tax := 0, is_mintable := none,
                owner_address := none, holder_count := 70, token_name := none })
        mdEmpty).checks "holder_distribution" = some (Val.str "WARNING - Low holder count") ∧
    getc (analyze_token_safety "ethereum" "TokHold" none none evmMeta70).checks
        "holder_distribution" = some (Val.str "FAIL - Too few holders") :=
  ⟨(analyze_holder_thresholds "solana" "TokHold" none mdEmpty).1 _ (by decide) (by decide),
   (analyze_holder_thresholds "solana" "TokHold" none mdEmpty).2.1 _ (by decide) (by decide),
   (analyze_holder_thresholds "ethereum" "TokHold" none evmMeta70).2.2 70 rfl
     (by decide) (by decide)⟩

/-- The holder count the evaluation resolves: the GoPlus count when a
security payload exists, else `metadata.get("holder_count", 0)`. -/
def resolvedHolderCount (sd : Option SecurityData) (md : Metadata) : ℤ :=
  match sd with
  | some d => d.holder_count
  | none => md.holder_count.getD 0

/-- The checks mapping of every evaluation result has duplicate-free
keys: each row is a single entry. -/
theorem keys_nodup_analyze (chain token_address : String) (live : Option LiveData)
    (sd : Option SecurityData) (md : Metadata) :
    (((analyze_token_safety chain token_address live sd md).checks).map Prod.fst).Nodup := by
  have e : (analyze_token_safety chain token_address live sd md).checks =
      (runPipeline (evalSteps live sd md) (initState live sd md)).checks := rfl
  rw [e, runPipeline_evalSteps]
  have hInit : (((initState live sd md).checks).map Prod.fst).Nodup := by
    have hkeys : ((initState live sd md).checks).map Prod.fst =
        ["token_name", "data_source"] := rfl
    rw [hkeys]
    decide
  exact keys_nodup_clampBounds
    (keys_nodup_honeypotHeuristic
      (keys_nodup_nameCheck
        (keys_nodup_securityChecks
          (keys_nodup_volumeCheck
            (keys_nodup_ageCheck
              (keys_nodup_liquidityCheck hInit _) _) _) sd _) _) _ _)

/-- Metadata supplying `volume_24h = 0` and `holder_count = 0`
explicitly. -/
def zeroSuppliedMetadata : Metadata :=
  { name := none, holder_count := some 0, liquidity_usd := some 50000,
    age_minutes := some 120, volume_24h := some 0 }

/-- C8 counterexample: when `volume_24h` is supplied as 0 and the holder
count is supplied as 0, neither the volume check nor the
holder-distribution check writes any row — the checks run only on
strictly positive values, so "supplied" alone does not guarantee a
row. -/
theorem zero_supplied_values_write_no_rows :
    getc (analyze_token_safety "solana" "TokenD" none none zeroSuppliedMetadata).checks
        "volume_check" = none ∧
    getc (analyze_token_safety "solana" "TokenD" none none zeroSuppliedMetadata).checks
        "holder_distribution" = none := by
  refine ⟨by decide, by decide⟩

/-- C8 as amended: whenever the resolved 24h volume is strictly
positive the volume check writes exactly one row under `volume_check`,
and whenever the resolved holder count is strictly positive the
holder-distribution check writes exactly one row under
`holder_distribution`; a value supplied as 0 writes no row. -/
theorem analyze_rows_written_once (chain token_address : String)
    (live : Option LiveData) (sd : Option SecurityData) (md : Metadata) :
    (0 < resolvedVolume live md →
      countKey (analyze_token_safety chain token_address live sd md).checks
        "volume_check" = 1) ∧
    (0 < resolvedHolderCount sd md →
      countKey (analyze_token_safety chain token_address live sd md).checks
        "holder_distribution" = 1) := by
  have e : (analyze_token_safety chain token_address live sd md).checks =
      (runPipeline (evalSteps live sd md) (initState live sd md)).checks := rfl
  have hnd := keys_nodup_analyze chain token_address live sd md
  constructor
  · intro hv
    have hget : getc (analyze_token_safety chain token_address live sd md).checks
        "volume_check" = some (Val.str
          (if resolvedVolume live md < 100 then "WARNING - Very low volume" else "PASS")) := by
      rw [e, runPipeline_evalSteps, getc_clampBounds, getc_honeypotHeuristic (by decide),
          getc_nameCheck (by decide),
          getc_securityChecks (by decide) (by decide) (by decide) (by decide) (by decide)
            (by decide) (by decide) (by decide) (by decide),
          getc_volumeCheck_row hv]
    exact countKey_eq_one hnd hget
  · intro hh
    cases sd with
    | some d =>
      have hd : 0 < d.holder_count := hh
      have hget : getc (analyze_token_safety chain token_address live (some d) md).checks
          "holder_distribution" = some (Val.str
            (if d.holder_count < 50 then "FAIL - Too few holders"
             else if d.holder_count < 100 then "WARNING - Low holder count"
             else "PASS")) := by
        rw [e, runPipeline_evalSteps, getc_clampBounds, getc_honeypotHeuristic (by decide),
            getc_nameCheck (by decide), getc_securityChecks_row_some hd]
      exact countKey_eq_one hnd hget
    | none =>
      have hm : 0 < md.holder_count.getD 0 := hh
      have hget : getc (analyze_token_safety chain token_address live none md).checks
          "holder_distribution" = some (Val.str
            (if md.holder_count.getD 0 < 100 then "FAIL - Too few holders" else "PASS")) := by
        rw [e, runPipeline_evalSteps, getc_clampBounds, getc_honeypotHeuristic (by decide),
            getc_nameCheck (by decide), getc_securityChecks_row_none hm]
      exact countKey_eq_one hnd hget

/-- Positive volume and holder metadata for the C8 witness. -/
def posMetadata : Metadata :=
  { name := none, holder_count := some 70, liquidity_usd := some 50000,
    age_minutes := some 120, volume_24h := some 50 }

/-- Witness for C8 (amended): with volume 50 and 70 holders supplied,
each of the two checks writes exactly one row. -/
theorem analyze_rows_written_once_witness :
    countKey (analyze_token_safety "solana" "TokenE" none none posMetadata).checks
        "volume_check" = 1 ∧
    countKey (analyze_token_safety "solana" "TokenE" none none posMetadata).checks
        "holder_distribution" = 1 :=
  ⟨(analyze_rows_written_once "solana" "TokenE" none none posMetadata).1 (by decide),
   (analyze_rows_written_once "solana" "TokenE" none none posMetadata).2 (by decide)⟩
